import Mathlib

/-!
Shallow embedding of `src/beehive_monitor.ino` (ESP32 beehive monitor).

Modelling conventions:
* `millis()` values are natural numbers below `2^32`; the unsigned 32-bit
  subtraction `now - last` used in every elapsed-time check is modelled by
  `elapsedMs`, which computes `(now + 2^32 - last) % 2^32`.
* Arduino `float` readings and limits are modelled as exact rationals `ℚ`;
  the comparisons in `checkAlerts` are the same strict `>` comparisons.
* Fallible reads (`dht.readTemperature()` returning NaN, `scale.is_ready()`
  false, clock unavailable) are modelled with `Option`.
* Serial output to the SIM800 modem is modelled as a list of `SimWrite`
  events instead of hardware writes; the state machine consumes no input,
  exactly as the source never reads a modem response.
-/

/-- `2^32`, the modulus of Arduino `unsigned long` arithmetic on ESP32. -/
def UINT32_MOD : Nat := 4294967296

/-- Unsigned 32-bit `now - last`, the idiom used by every timer check in the
sketch (`millis() - lastX`). -/
def elapsedMs (now last : Nat) : Nat := (now + UINT32_MOD - last) % UINT32_MOD

/-- Shared reading state: globals `temperature`, `humidity`, `weight`,
`mq135_raw` (lines 89-92). -/
structure Reading where
  temperature : ℚ
  humidity : ℚ
  weight : ℚ
  mq135_raw : ℤ
deriving DecidableEq

/-- Settings globals `activePhoneNumber`, `lim_temp`, `lim_hum`,
`lim_weight`, `lim_air` (lines 95-99). -/
structure Settings where
  activePhoneNumber : String
  lim_temp : ℚ
  lim_hum : ℚ
  lim_weight : ℚ
  lim_air : ℤ
deriving DecidableEq

/-- Fractional digits of a nonnegative exact rational by long division,
as `Print::printFloat` emits them digit by digit. -/
def fracDigits : Nat → Nat → Nat → String
  | 0, _, _ => ""
  | k + 1, rem, den =>
      let t := rem * 10
      toString (t / den) ++ fracDigits k (t % den) den

/-- Arduino `String(float, digits)` / `printf("%.Nf")` on a nonnegative
value: add half of the last printed digit, then print by long division. -/
def fmtFixedNN (digits : Nat) (q : ℚ) : String :=
  let r : ℚ := q + 1 / (2 * 10 ^ digits)
  let n : Nat := r.num.toNat
  toString (n / r.den) ++ "." ++ fracDigits digits (n % r.den) r.den

/-- Arduino `String(float, digits)`: sign handled first, then the
nonnegative formatting (mirrors `Print::printFloat`). -/
def fmtFixed (digits : Nat) (q : ℚ) : String :=
  if q < 0 then "-" ++ fmtFixedNN digits (-q) else fmtFixedNN digits q

/-- Message built at line 269 for a temperature breach. -/
def tempAlertMsg (r : Reading) (s : Settings) : String :=
  "⚠️ Alert: High Temperature! Reading: " ++ fmtFixed 1 r.temperature
    ++ "C. Limit: " ++ fmtFixed 1 s.lim_temp

/-- Message built at line 273 for a humidity breach. -/
def humAlertMsg (r : Reading) (s : Settings) : String :=
  "⚠️ Alert: High Humidity! Reading: " ++ fmtFixed 1 r.humidity
    ++ "%. Limit: " ++ fmtFixed 1 s.lim_hum

/-- Message built at line 277 for a weight breach. -/
def weightAlertMsg (r : Reading) (s : Settings) : String :=
  "⚠️ Alert: Weight Exceeded! Reading: " ++ fmtFixed 1 r.weight
    ++ "kg. Limit: " ++ fmtFixed 1 s.lim_weight

/-- Message built at line 281 for an air-quality breach. -/
def airAlertMsg (r : Reading) (s : Settings) : String :=
  "⚠️ Alert: Poor Air Quality! Reading: " ++ toString r.mq135_raw
    ++ ". Limit: " ++ toString s.lim_air

/-- The `if / else if` chain of `checkAlerts` (lines 268-283): the
condition chain that selects at most one alert message. -/
def evaluateAlert (r : Reading) (s : Settings) : Option String :=
  if r.temperature > s.lim_temp then some (tempAlertMsg r s)
  else if r.humidity > s.lim_hum then some (humAlertMsg r s)
  else if r.weight > s.lim_weight then some (weightAlertMsg r s)
  else if r.mq135_raw > s.lim_air then some (airAlertMsg r s)
  else none

/-- `enum SmsState` (line 114). -/
inductive SmsState
  | SMS_IDLE
  | SMS_MODE
  | SMS_NUMBER
  | SMS_CONTENT
  | SMS_WAIT
deriving DecidableEq

/-- Dispatcher globals `currentSmsState`, `smsTimer`, `smsQueueNum`,
`smsQueueMsg` (lines 115-119). -/
structure SmsMachine where
  currentSmsState : SmsState
  smsTimer : Nat
  smsQueueNum : String
  smsQueueMsg : String
deriving DecidableEq

/-- Boot values of the dispatcher globals (lines 115-119). -/
def initSmsMachine : SmsMachine :=
  { currentSmsState := SmsState.SMS_IDLE, smsTimer := 0,
    smsQueueNum := "", smsQueueMsg := "" }

/-- `triggerSMS` (lines 220-227): accepts the job only when the machine is
idle, otherwise leaves every dispatcher variable untouched. -/
def triggerSMS (m : SmsMachine) (number message : String) : SmsMachine :=
  if m.currentSmsState = SmsState.SMS_IDLE then
    { m with smsQueueNum := number, smsQueueMsg := message,
             currentSmsState := SmsState.SMS_MODE }
  else m

/-- One write to the SIM800 serial channel: `println` of a command line,
`print` of raw text, or `write` of a single byte. -/
inductive SimWrite
  | line (s : String)
  | text (s : String)
  | byte (b : Nat)
deriving DecidableEq

/-- `manageSMS` (lines 229-261): one `switch` dispatch per call, each case
either a pure elapsed-time comparison or an immediate advance; the returned
list is what this call wrote to the modem channel. The machine reads
nothing from the modem. -/
def manageSMS (now : Nat) (m : SmsMachine) : SmsMachine × List SimWrite :=
  match m.currentSmsState with
  | SmsState.SMS_IDLE => (m, [])
  | SmsState.SMS_MODE =>
      ({ m with smsTimer := now, currentSmsState := SmsState.SMS_NUMBER },
       [SimWrite.line "AT+CMGF=1"])
  | SmsState.SMS_NUMBER =>
      if elapsedMs now m.smsTimer > 200 then
        ({ m with smsTimer := now, currentSmsState := SmsState.SMS_CONTENT },
         [SimWrite.text "AT+CMGS=\"", SimWrite.text m.smsQueueNum,
          SimWrite.line "\""])
      else (m, [])
  | SmsState.SMS_CONTENT =>
      if elapsedMs now m.smsTimer > 200 then
        ({ m with smsTimer := now, currentSmsState := SmsState.SMS_WAIT },
         [SimWrite.text m.smsQueueMsg, SimWrite.byte 26])
      else (m, [])
  | SmsState.SMS_WAIT =>
      if elapsedMs now m.smsTimer > 3000 then
        ({ m with currentSmsState := SmsState.SMS_IDLE }, [])
      else (m, [])

/-- Runs `manageSMS` over a list of tick instants, accumulating the modem
writes of the whole run. -/
def runSMS (m : SmsMachine) (ticks : List Nat) : SmsMachine × List SimWrite :=
  ticks.foldl
    (fun acc t =>
      let st := manageSMS t acc.1
      (st.1, acc.2 ++ st.2))
    (m, [])

/-- The alert-side mutable state: the dispatcher plus `lastSmsCooldown`
(line 117). -/
structure AlertState where
  sms : SmsMachine
  lastSmsCooldown : Nat
deriving DecidableEq

/-- Boot value: `lastSmsCooldown = 0` (line 117) next to an idle
dispatcher. -/
def initAlertState : AlertState := { sms := initSmsMachine, lastSmsCooldown := 0 }

/-- `SMS_COOLDOWN` (line 111). -/
def SMS_COOLDOWN : Nat := 300000

/-- `checkAlerts` (lines 263-289): early return while the global cooldown
runs; otherwise the `if / else if` chain (`evaluateAlert`) selects at most
one message, and on a breach the job is handed to `triggerSMS` and the
cooldown stamp is reset to the current instant. Both `millis()` calls of
the function fall inside one tick and are modelled by the single `now`. -/
def checkAlerts (now : Nat) (r : Reading) (s : Settings) (st : AlertState) :
    AlertState :=
  if elapsedMs now st.lastSmsCooldown < SMS_COOLDOWN then st
  else
    match evaluateAlert r s with
    | some msg =>
        { sms := triggerSMS st.sms s.activePhoneNumber msg,
          lastSmsCooldown := now }
    | none => st

/-- One acquisition attempt per channel, as gathered in the sensor block of
`loop` (lines 871-876): `none` models a NaN DHT read or a not-ready load
cell; `analogRead` always yields a value. -/
structure SensorSample where
  dhtTemp : Option ℚ
  dhtHum : Option ℚ
  hxWeight : Option ℚ
  mqRaw : ℤ
deriving DecidableEq

/-- The shared-state update of the sensor block (lines 871-876):
`if (!isnan(t)) temperature = t;` etc. A failed channel keeps its previous
shared value; `mq135_raw` is overwritten unconditionally. -/
def applySample (r : Reading) (smp : SensorSample) : Reading :=
  { temperature := smp.dhtTemp.getD r.temperature,
    humidity := smp.dhtHum.getD r.humidity,
    weight := smp.hxWeight.getD r.weight,
    mq135_raw := smp.mqRaw }

/-- One row of the `readings` table (line 167). -/
structure LogRow where
  timestamp : String
  temp : ℚ
  hum : ℚ
  weight : ℚ
  mq : ℤ
deriving DecidableEq

/-- `sprintf("%02lu", seconds)`: decimal, zero-padded to two digits. -/
def pad2 (n : Nat) : String :=
  if n < 10 then "0" ++ toString n else toString n

/-- Timestamp synthesis of `saveToDatabase` (lines 189-193): the real
timestamp when the clock is available (`some t`), otherwise the offline
marker built from `millis() / 1000`. -/
def mkTimestamp (ts : Option String) (now : Nat) : String :=
  match ts with
  | some t => t
  | none => "Offline-" ++ pad2 (now / 1000)

/-- The row `saveToDatabase` inserts (lines 195-209) from the current
shared reading. -/
def mkRow (ts : Option String) (now : Nat) (r : Reading) : LogRow :=
  { timestamp := mkTimestamp ts now, temp := r.temperature,
    hum := r.humidity, weight := r.weight, mq := r.mq135_raw }

/-- Persistence-side state: `lastDbMillis` (line 108) and the append-only
`readings` log. -/
structure DbState where
  lastDbMillis : Nat
  log : List LogRow
deriving DecidableEq

/-- `DB_SAVE_INTERVAL` (line 79). -/
def DB_SAVE_INTERVAL : Nat := 30000

/-- The database-save block at the end of `loop` (lines 887-892): when the
interval has elapsed, the save and the deadline advance happen only if the
dispatcher is idle; otherwise nothing in the persistence state changes. -/
def dbTick (now : Nat) (smsState : SmsState) (r : Reading) (ts : Option String)
    (st : DbState) : DbState :=
  if elapsedMs now st.lastDbMillis ≥ DB_SAVE_INTERVAL then
    if smsState = SmsState.SMS_IDLE then
      { lastDbMillis := now, log := st.log ++ [mkRow ts now r] }
    else st
  else st

/-- SQLite's default `LIKE` case folding: only ASCII A-Z fold. -/
def asciiLower (c : Char) : Char :=
  if 'A' ≤ c ∧ c ≤ 'Z' then Char.ofNat (c.toNat + 32) else c

/-- SQLite `timestamp LIKE 'Offline-%'` (line 824): ASCII
case-insensitive prefix match against the offline marker. -/
def isOfflineLike (t : String) : Bool :=
  ((t.take 8).data.map asciiLower) == "offline-".data

/-- `substr(timestamp, 1, 10)`: the date portion used as the GROUP BY
key of the monthly query (line 824). -/
def dayKey (r : LogRow) : String := r.timestamp.take 10

/-- SQL `AVG` over the values of one group. -/
def avgQ (l : List ℚ) : ℚ := l.sum / l.length

/-- One row of the `/monthly_data` result set (line 824). -/
structure DayAvg where
  day : String
  avg_temp : ℚ
  avg_hum : ℚ
  avg_weight : ℚ
  avg_mq : ℚ
deriving DecidableEq

/-- The `WHERE timestamp NOT LIKE 'Offline-%'` filter of the monthly
query. -/
def nonOffline (log : List LogRow) : List LogRow :=
  log.filter (fun r => !(isOfflineLike r.timestamp))

/-- The aggregate of one GROUP BY bucket: the four `AVG` columns over the
rows of one day. -/
def dayBucket (rows : List LogRow) (d : String) : DayAvg :=
  let g := rows.filter (fun r => dayKey r == d)
  { day := d,
    avg_temp := avgQ (g.map LogRow.temp),
    avg_hum := avgQ (g.map LogRow.hum),
    avg_weight := avgQ (g.map LogRow.weight),
    avg_mq := avgQ (g.map (fun r => (r.mq : ℚ))) }

/-- `GROUP BY day ORDER BY day DESC LIMIT 30` applied to an already
filtered row set. -/
def aggregateDays (rows : List LogRow) : List DayAvg :=
  let days := (rows.map dayKey).dedup
  ((List.insertionSort (fun a b => b ≤ a) days).take 30).map (dayBucket rows)

/-- The query of the `/monthly_data` route (line 824):
`SELECT substr(timestamp,1,10) as day, AVG(temp), AVG(hum), AVG(weight),
AVG(mq) FROM readings WHERE timestamp NOT LIKE 'Offline-%' GROUP BY day
ORDER BY day DESC LIMIT 30;`. -/
def queryMonthlyAverages (log : List LogRow) : List DayAvg :=
  aggregateDays (nonOffline log)

/-- Session globals `session_expiry` and `is_logged_in` (lines 102-104). -/
structure SessionState where
  is_logged_in : Bool
  session_expiry : Nat
deriving DecidableEq

/-- `SESSION_TIMEOUT` (line 103). -/
def SESSION_TIMEOUT : Nat := 1800000

/-- Does the first char list start with the second? -/
def listStartsWith : List Char → List Char → Bool
  | _, [] => true
  | [], _ :: _ => false
  | a :: s, b :: p => a == b && listStartsWith s p

/-- Substring containment over char lists: some suffix starts with the
pattern. -/
def containsSubList : List Char → List Char → Bool
  | [], p => listStartsWith [] p
  | s@(_ :: t), p => listStartsWith s p || containsSubList t p

/-- `String.indexOf(pat) != -1`: substring containment. -/
def containsSub (s pat : String) : Bool :=
  containsSubList s.data pat.data

/-- `is_authenticated` (lines 138-152). The request's `Cookie` header is
`none` when absent. `session_expiry = millis() + SESSION_TIMEOUT` is the
unsigned 32-bit sum, hence the `% UINT32_MOD`; the expiry test is the
plain comparison `millis() > session_expiry` of the source. Returns the
boolean result together with the updated session globals. -/
def is_authenticated (now : Nat) (cookie : Option String) (st : SessionState) :
    Bool × SessionState :=
  if !st.is_logged_in then (false, st)
  else if st.session_expiry < now then
    (false, { st with is_logged_in := false })
  else
    match cookie with
    | some c =>
        if containsSub c "ESPSESSIONID=1" then
          (true, { st with session_expiry := (now + SESSION_TIMEOUT) % UINT32_MOD })
        else (false, st)
    | none => (false, st)

/-- The part of an HTTP response the routes of this sketch produce: status
code, optional `Location` header, optional content type, body. Other
headers (`Set-Cookie`, `Cache-Control`) are not modelled. -/
structure HttpResponse where
  status : Nat
  location : Option String
  contentType : Option String
  body : String
deriving DecidableEq

/-- The static dashboard page constant (lines 327-490). The HTML text is an
out-of-scope static asset; only its identity matters here. -/
def dashboardPage : String := "<!DOCTYPE html> (dashboard static asset)"

/-- The static report page constant (lines 493-620). Static asset, as
above. -/
def reportPage : String := "<!DOCTYPE html> (report static asset)"

/-- `%.2f` JSON number formatting used by the API routes. -/
def fmt2 (q : ℚ) : String := fmtFixed 2 q

/-- Body built by the `/data` route (lines 726-729). -/
def dataJson (r : Reading) : String :=
  "\x7b\"temp\":" ++ fmt2 r.temperature ++ ",\"hum\":" ++ fmt2 r.humidity
    ++ ",\"weight\":" ++ fmt2 r.weight ++ ",\"air\":" ++ toString r.mq135_raw
    ++ "\x7d"

/-- Body built by the `/get_settings` route (lines 737-740). -/
def settingsJson (s : Settings) : String :=
  "\x7b\"phone\":\"" ++ s.activePhoneNumber ++ "\",\"lt\":" ++ fmtFixed 1 s.lim_temp
    ++ ",\"lh\":" ++ fmtFixed 1 s.lim_hum ++ ",\"lw\":" ++ fmtFixed 1 s.lim_weight
    ++ ",\"la\":" ++ toString s.lim_air ++ "\x7d"

/-- One element of the `/history` JSON array (lines 797-804). -/
def historyRowJson (row : LogRow) : String :=
  "\x7b\"timestamp\":\"" ++ row.timestamp ++ "\",\"temp\":" ++ fmt2 row.temp
    ++ ",\"hum\":" ++ fmt2 row.hum ++ ",\"weight\":" ++ fmt2 row.weight
    ++ ",\"mq\":" ++ toString row.mq ++ "\x7d"

/-- `SELECT ... FROM readings ORDER BY id DESC LIMIT 10` (line 792) over
the append-only log: the ten newest rows, newest first. -/
def queryRecent (log : List LogRow) : List LogRow := log.reverse.take 10

/-- Body built by the `/history` route (lines 787-812). -/
def historyJson (log : List LogRow) : String :=
  "[" ++ String.intercalate "," ((queryRecent log).map historyRowJson) ++ "]"

/-- `sqlite3_column_int` on a REAL `AVG` value: truncation toward zero. -/
def truncQ (q : ℚ) : ℤ := Int.tdiv q.num q.den

/-- One element of the `/monthly_data` JSON array (lines 830-837); the
`avg_mq` column is printed through `%d`/`column_int`. -/
def monthlyRowJson (b : DayAvg) : String :=
  "\x7b\"day\":\"" ++ b.day ++ "\",\"avg_temp\":" ++ fmt2 b.avg_temp
    ++ ",\"avg_hum\":" ++ fmt2 b.avg_hum ++ ",\"avg_weight\":" ++ fmt2 b.avg_weight
    ++ ",\"avg_mq\":" ++ toString (truncQ b.avg_mq) ++ "\x7d"

/-- Body built by the `/monthly_data` route (lines 819-845). -/
def monthlyJson (log : List LogRow) : String :=
  "[" ++ String.intercalate "," ((queryMonthlyAverages log).map monthlyRowJson) ++ "]"

/-- `/dashboard` (lines 710-714), with `auth` the result of the
`is_authenticated()` call: unauthenticated requests get
`sendHeader("Location", "/"); send(303)`. -/
def handleDashboard (auth : Bool) : HttpResponse :=
  if !auth then
    { status := 303, location := some "/", contentType := none, body := "" }
  else
    { status := 200, location := none, contentType := some "text/html",
      body := dashboardPage }

/-- `/report` (lines 716-720). -/
def handleReport (auth : Bool) : HttpResponse :=
  if !auth then
    { status := 303, location := some "/", contentType := none, body := "" }
  else
    { status := 200, location := none, contentType := some "text/html",
      body := reportPage }

/-- `/data` (lines 723-732): unauthenticated requests get
`send(303, "text/plain", "/")` — a 303 whose body is "/" and which sets no
`Location` header. -/
def handleData (auth : Bool) (r : Reading) : HttpResponse :=
  if !auth then
    { status := 303, location := none, contentType := some "text/plain",
      body := "/" }
  else
    { status := 200, location := none, contentType := some "application/json",
      body := dataJson r }

/-- `/get_settings` (lines 734-743). -/
def handleGetSettings (auth : Bool) (s : Settings) : HttpResponse :=
  if !auth then
    { status := 303, location := none, contentType := some "text/plain",
      body := "/" }
  else
    { status := 200, location := none, contentType := some "application/json",
      body := settingsJson s }

/-- The form fields of `/save_settings` after the `toFloat` / `toInt`
conversions of lines 749-753 (string-to-number parsing is not re-modelled). -/
structure SaveArgs where
  phone : String
  lt : ℚ
  lh : ℚ
  lw : ℚ
  la : ℤ
deriving DecidableEq

/-- `/save_settings` (lines 745-775): `args = none` models a request
without the `phone` form field. Returns the response and the settings
after the handler. -/
def handleSaveSettings (auth : Bool) (s : Settings) (args : Option SaveArgs) :
    HttpResponse × Settings :=
  if !auth then
    ({ status := 303, location := none, contentType := some "text/plain",
       body := "/" }, s)
  else
    match args with
    | some a =>
        ({ status := 303, location := some "/dashboard", contentType := none,
           body := "" },
         { activePhoneNumber := a.phone, lim_temp := a.lt, lim_hum := a.lh,
           lim_weight := a.lw, lim_air := a.la })
    | none =>
        ({ status := 400, location := none, contentType := some "text/plain",
           body := "Bad Request" }, s)

/-- `/sms` (lines 777-781): returns the response and the dispatcher after
the handler. -/
def handleSms (auth : Bool) (s : Settings) (m : SmsMachine) :
    HttpResponse × SmsMachine :=
  if !auth then
    ({ status := 303, location := none, contentType := some "text/plain",
       body := "/" }, m)
  else
    ({ status := 200, location := none, contentType := some "text/plain",
       body := "Queued" },
     triggerSMS m s.activePhoneNumber "Test Alert from Lebu's Farm System.")

/-- `/history` (lines 784-813). -/
def handleHistory (auth : Bool) (log : List LogRow) : HttpResponse :=
  if !auth then
    { status := 303, location := none, contentType := some "text/plain",
      body := "/" }
  else
    { status := 200, location := none, contentType := some "application/json",
      body := historyJson log }

/-- `/monthly_data` (lines 816-846). -/
def handleMonthly (auth : Bool) (log : List LogRow) : HttpResponse :=
  if !auth then
    { status := 303, location := none, contentType := some "text/plain",
      body := "/" }
  else
    { status := 200, location := none, contentType := some "application/json",
      body := monthlyJson log }

/-- The four alert causes, for the spec-side description of the evaluator
(§4.2). -/
inductive AlertChannel
  | temp
  | hum
  | weight
  | air
deriving DecidableEq

/-- Spec-side: whether one channel's reading strictly exceeds its limit. -/
def channelBreached (r : Reading) (s : Settings) : AlertChannel → Bool
  | AlertChannel.temp => decide (r.temperature > s.lim_temp)
  | AlertChannel.hum => decide (r.humidity > s.lim_hum)
  | AlertChannel.weight => decide (r.weight > s.lim_weight)
  | AlertChannel.air => decide (r.mq135_raw > s.lim_air)

/-- Spec-side: the fixed priority order of §4.2 — temperature, humidity,
weight, air quality. -/
def specPriorityOrder : List AlertChannel :=
  [AlertChannel.temp, AlertChannel.hum, AlertChannel.weight, AlertChannel.air]

/-- Spec-side: the first breached channel in priority order, if any. -/
def specFirstBreach (r : Reading) (s : Settings) : Option AlertChannel :=
  (specPriorityOrder.filter (channelBreached r s)).head?

/-- The message the sketch builds for each channel. -/
def channelMsg (r : Reading) (s : Settings) : AlertChannel → String
  | AlertChannel.temp => tempAlertMsg r s
  | AlertChannel.hum => humAlertMsg r s
  | AlertChannel.weight => weightAlertMsg r s
  | AlertChannel.air => airAlertMsg r s

/-- For `last ≤ now < 2^32` the unsigned elapsed time is the plain
difference. -/
theorem elapsedMs_eq_sub (now last : Nat) (hle : last ≤ now)
    (hlt : now < UINT32_MOD) : elapsedMs now last = now - last := by
  unfold elapsedMs
  have h1 : now + UINT32_MOD - last = (now - last) + UINT32_MOD := by omega
  rw [h1, Nat.add_mod_right]
  exact Nat.mod_eq_of_lt (by omega)

/-- C2: the notification dispatcher holds at most one job system-wide: a
`triggerSMS` call made while the state machine is in any state other than
`IDLE` leaves the dispatcher state, the queued recipient, and the queued
message body all unchanged — the new job is silently dropped, never
queued. -/
theorem triggerSMS_busy_drop (m : SmsMachine) (number message : String)
    (h : m.currentSmsState ≠ SmsState.SMS_IDLE) :
    triggerSMS m number message = m ∧
    (triggerSMS m number message).currentSmsState = m.currentSmsState ∧
    (triggerSMS m number message).smsQueueNum = m.smsQueueNum ∧
    (triggerSMS m number message).smsQueueMsg = m.smsQueueMsg := by
  unfold triggerSMS
  simp [h]

/-- Witness for C2 at a concrete busy machine: a second trigger while the
dispatcher is in `WAIT` changes nothing. -/
theorem triggerSMS_busy_drop_witness :
    (SmsMachine.mk SmsState.SMS_WAIT 5 "+111" "old").currentSmsState
        ≠ SmsState.SMS_IDLE ∧
    triggerSMS (SmsMachine.mk SmsState.SMS_WAIT 5 "+111" "old") "+222" "new"
        = SmsMachine.mk SmsState.SMS_WAIT 5 "+111" "old" :=
  ⟨by decide,
   (triggerSMS_busy_drop (SmsMachine.mk SmsState.SMS_WAIT 5 "+111" "old")
      "+222" "new" (by decide)).1⟩

/-- C4: the alert evaluator checks temperature, humidity, weight, air
quality in that fixed order and produces at most one message per
invocation: its result is exactly the message of the *first* channel (in
priority order) whose reading strictly exceeds its limit, and `none` when
no channel breaches. -/
theorem evaluateAlert_first_breach (r : Reading) (s : Settings) :
    evaluateAlert r s = (specFirstBreach r s).map (channelMsg r s) := by
  unfold evaluateAlert specFirstBreach specPriorityOrder channelBreached
  by_cases h1 : r.temperature > s.lim_temp <;>
    by_cases h2 : r.humidity > s.lim_hum <;>
      by_cases h3 : r.weight > s.lim_weight <;>
        by_cases h4 : r.mq135_raw > s.lim_air <;>
          simp [h1, h2, h3, h4, List.filter, channelMsg]

/-- C10: because `lastSmsCooldown` boots at 0 and `checkAlerts` returns
early whenever less than 300,000 ms have elapsed since that reference, no
alert of any kind can be raised during the first 300,000 ms after startup,
whatever the readings and limits are. -/
theorem checkAlerts_boot_cooldown (now : Nat) (r : Reading) (s : Settings)
    (h : now < SMS_COOLDOWN) :
    checkAlerts now r s initAlertState = initAlertState := by
  unfold checkAlerts
  have h0 : elapsedMs now initAlertState.lastSmsCooldown = now := by
    show elapsedMs now 0 = now
    unfold elapsedMs
    rw [Nat.sub_zero, Nat.add_mod_right]
    exact Nat.mod_eq_of_lt (by unfold SMS_COOLDOWN at h; unfold UINT32_MOD; omega)
  rw [h0, if_pos h]

/-- Witness for C10: at 299,999 ms after boot a blatant temperature breach
(reading 100 against limit 40) raises nothing. -/
theorem checkAlerts_boot_cooldown_witness :
    (299999 : Nat) < SMS_COOLDOWN ∧
    evaluateAlert (Reading.mk 100 0 0 0) (Settings.mk "+254700000000" 40 85 50 400)
        ≠ none ∧
    checkAlerts 299999 (Reading.mk 100 0 0 0)
        (Settings.mk "+254700000000" 40 85 50 400) initAlertState
      = initAlertState :=
  ⟨by decide, by decide,
   checkAlerts_boot_cooldown 299999 (Reading.mk 100 0 0 0)
     (Settings.mk "+254700000000" 40 85 50 400) (by decide)⟩

/-- C1: a single global cooldown gates all four alert causes jointly.
When `checkAlerts` raises an alert at `now1` (cooldown clear, some channel
breached), the job is handed to `triggerSMS` and the cooldown stamp is
reset to `now1` at that very moment — not on send completion; and any
`checkAlerts` invocation at `now2` less than 300,000 ms later is a
complete no-op whatever the readings, the limits and the dispatcher state
then are, so at most one notification job is created by the two
breaches. -/
theorem checkAlerts_cooldown_gate
    (st : AlertState) (r1 r2 : Reading) (s1 s2 : Settings)
    (now1 now2 : Nat) (m2 : SmsMachine)
    (hlt : now2 < UINT32_MOD) (hle : now1 ≤ now2)
    (hgap : now2 - now1 < SMS_COOLDOWN)
    (hcool : ¬ elapsedMs now1 st.lastSmsCooldown < SMS_COOLDOWN)
    (hbreach : evaluateAlert r1 s1 ≠ none) :
    (checkAlerts now1 r1 s1 st).lastSmsCooldown = now1 ∧
    (∃ msg, evaluateAlert r1 s1 = some msg ∧
      (checkAlerts now1 r1 s1 st).sms
          = triggerSMS st.sms s1.activePhoneNumber msg) ∧
    checkAlerts now2 r2 s2 (AlertState.mk m2 now1) = AlertState.mk m2 now1 := by
  obtain ⟨msg, hmsg⟩ := Option.ne_none_iff_exists'.mp hbreach
  have hsecond : checkAlerts now2 r2 s2 (AlertState.mk m2 now1)
      = AlertState.mk m2 now1 := by
    unfold checkAlerts
    have he : elapsedMs now2 now1 = now2 - now1 :=
      elapsedMs_eq_sub now2 now1 hle hlt
    rw [if_pos (by rw [he]; exact hgap)]
  refine ⟨?_, ⟨msg, hmsg, ?_⟩, hsecond⟩ <;>
    · unfold checkAlerts
      rw [if_neg hcool, hmsg]

/-- Witness for C1: a temperature breach at t=300,000 (cooldown clear
since boot stamp 0) resets the cooldown stamp; an identical breach at
t=599,999 — 299,999 ms later — changes nothing. -/
theorem checkAlerts_cooldown_gate_witness :
    (checkAlerts 300000 (Reading.mk 41 0 0 0) (Settings.mk "+111" 40 85 50 400)
        (AlertState.mk initSmsMachine 0)).lastSmsCooldown = 300000 ∧
    checkAlerts 599999 (Reading.mk 41 0 0 0) (Settings.mk "+111" 40 85 50 400)
        (AlertState.mk initSmsMachine 300000)
      = AlertState.mk initSmsMachine 300000 :=
  ⟨(checkAlerts_cooldown_gate (AlertState.mk initSmsMachine 0)
      (Reading.mk 41 0 0 0) (Reading.mk 41 0 0 0)
      (Settings.mk "+111" 40 85 50 400) (Settings.mk "+111" 40 85 50 400)
      300000 599999 initSmsMachine (by decide) (by decide) (by decide)
      (by decide) (by decide)).1,
   (checkAlerts_cooldown_gate (AlertState.mk initSmsMachine 0)
      (Reading.mk 41 0 0 0) (Reading.mk 41 0 0 0)
      (Settings.mk "+111" 40 85 50 400) (Settings.mk "+111" 40 85 50 400)
      300000 599999 initSmsMachine (by decide) (by decide) (by decide)
      (by decide) (by decide)).2.2⟩

/-- Counterexample for C3 as stated: with the step timer stamped at 0, at
`now = 200` exactly 200 ms have elapsed — so under "NUMBER fires after
>=200 ms elapsed" the machine should advance to CONTENT — yet the source
condition is the strict `now - smsTimer > 200`, so the machine stays in
NUMBER and emits nothing. -/
theorem manageSMS_number_at_exactly_200 :
    elapsedMs 200 0 = 200 ∧
    (manageSMS 200 (SmsMachine.mk SmsState.SMS_NUMBER 0 "+111" "msg")).1
        = SmsMachine.mk SmsState.SMS_NUMBER 0 "+111" "msg" ∧
    (manageSMS 200 (SmsMachine.mk SmsState.SMS_NUMBER 0 "+111" "msg")).2 = [] := by
  decide

/-- C3 (amended: the NUMBER / CONTENT delays fire strictly after more than
200 ms, the WAIT timeout strictly after more than 3000 ms): for every
accepted job the dispatcher steps through exactly
IDLE → MODE → NUMBER → CONTENT → WAIT → IDLE, one transition check per
tick. MODE emits the mode-set directive and advances immediately; NUMBER
fires once more than 200 ms elapsed since the step timer; CONTENT fires
once more than 200 ms elapsed and emits the body followed by the
terminator byte 26; WAIT returns unconditionally to IDLE once more than
3000 ms elapsed, the machine consuming no modem input anywhere; a tick
arriving before a step's delay leaves the machine unchanged (each wait is
an elapsed-time comparison, never a blocking sleep). -/
theorem manageSMS_run (m0 : SmsMachine) (num msg : String) (t1 t2 t3 t4 : Nat)
    (hidle : m0.currentSmsState = SmsState.SMS_IDLE)
    (h2 : elapsedMs t2 t1 > 200) (h3 : elapsedMs t3 t2 > 200)
    (h4 : elapsedMs t4 t3 > 3000) :
    (triggerSMS m0 num msg).currentSmsState = SmsState.SMS_MODE ∧
    (runSMS (triggerSMS m0 num msg) [t1]).1.currentSmsState
        = SmsState.SMS_NUMBER ∧
    (runSMS (triggerSMS m0 num msg) [t1, t2]).1.currentSmsState
        = SmsState.SMS_CONTENT ∧
    (runSMS (triggerSMS m0 num msg) [t1, t2, t3]).1.currentSmsState
        = SmsState.SMS_WAIT ∧
    runSMS (triggerSMS m0 num msg) [t1, t2, t3, t4]
      = (SmsMachine.mk SmsState.SMS_IDLE t3 num msg,
         [SimWrite.line "AT+CMGF=1", SimWrite.text "AT+CMGS=\"",
          SimWrite.text num, SimWrite.line "\"", SimWrite.text msg,
          SimWrite.byte 26]) ∧
    (∀ t (m : SmsMachine), m.currentSmsState = SmsState.SMS_NUMBER →
        elapsedMs t m.smsTimer ≤ 200 → manageSMS t m = (m, [])) ∧
    (∀ t (m : SmsMachine), m.currentSmsState = SmsState.SMS_CONTENT →
        elapsedMs t m.smsTimer ≤ 200 → manageSMS t m = (m, [])) ∧
    (∀ t (m : SmsMachine), m.currentSmsState = SmsState.SMS_WAIT →
        elapsedMs t m.smsTimer ≤ 3000 → manageSMS t m = (m, [])) := by
  refine ⟨?_, ?_, ?_, ?_, ?_, ?_, ?_, ?_⟩
  · simp [triggerSMS, hidle]
  · simp [runSMS, triggerSMS, hidle, manageSMS]
  · simp [runSMS, triggerSMS, hidle, manageSMS, h2]
  · simp [runSMS, triggerSMS, hidle, manageSMS, h2, h3]
  · simp [runSMS, triggerSMS, hidle, manageSMS, h2, h3, h4]
  · intro t m hm hle
    unfold manageSMS
    rw [hm]
    simp [Nat.not_lt.mpr hle]
  · intro t m hm hle
    unfold manageSMS
    rw [hm]
    simp [Nat.not_lt.mpr hle]
  · intro t m hm hle
    unfold manageSMS
    rw [hm]
    simp [Nat.not_lt.mpr hle]

/-- Witness for C3 (amended): a concrete accepted job with ticks at 1000,
1300, 1600 and 5000 ms runs end-to-end and emits exactly the mode
directive, the recipient directive, the body and the terminator byte. -/
theorem manageSMS_run_witness :
    runSMS (triggerSMS initSmsMachine "+254700000000" "hello")
        [1000, 1300, 1600, 5000]
      = (SmsMachine.mk SmsState.SMS_IDLE 1600 "+254700000000" "hello",
         [SimWrite.line "AT+CMGF=1", SimWrite.text "AT+CMGS=\"",
          SimWrite.text "+254700000000", SimWrite.line "\"",
          SimWrite.text "hello", SimWrite.byte 26]) :=
  (manageSMS_run initSmsMachine "+254700000000" "hello" 1000 1300 1600 5000
    rfl (by decide) (by decide) (by decide)).2.2.2.2.1

/-- Folding samples whose temperature read failed leaves the shared
temperature untouched. -/
theorem foldl_applySample_temp (smps : List SensorSample) :
    ∀ r : Reading, (∀ x ∈ smps, x.dhtTemp = none) →
      (smps.foldl applySample r).temperature = r.temperature := by
  induction smps with
  | nil => intro r _; rfl
  | cons a l ih =>
      intro r h
      rw [List.foldl_cons, ih _ (fun x hx => h x (List.mem_cons_of_mem a hx))]
      simp [applySample, h a (List.mem_cons_self a l)]

/-- Folding samples whose humidity read failed leaves the shared humidity
untouched. -/
theorem foldl_applySample_hum (smps : List SensorSample) :
    ∀ r : Reading, (∀ x ∈ smps, x.dhtHum = none) →
      (smps.foldl applySample r).humidity = r.humidity := by
  induction smps with
  | nil => intro r _; rfl
  | cons a l ih =>
      intro r h
      rw [List.foldl_cons, ih _ (fun x hx => h x (List.mem_cons_of_mem a hx))]
      simp [applySample, h a (List.mem_cons_self a l)]

/-- Folding samples taken while the load cell was never ready leaves the
shared weight untouched. -/
theorem foldl_applySample_weight (smps : List SensorSample) :
    ∀ r : Reading, (∀ x ∈ smps, x.hxWeight = none) →
      (smps.foldl applySample r).weight = r.weight := by
  induction smps with
  | nil => intro r _; rfl
  | cons a l ih =>
      intro r h
      rw [List.foldl_cons, ih _ (fun x hx => h x (List.mem_cons_of_mem a hx))]
      simp [applySample, h a (List.mem_cons_self a l)]

/-- C5: over any sequence of sensor samples containing failed reads (NaN
temperature or humidity, load cell not ready), the shared value of a
failed channel after the sample equals its value before the sample — the
last successful reading — both for a single sample and across a whole
sequence of failing samples; and a stored channel value is only ever the
previous value or a successfully read value, never an error sentinel. -/
theorem applySample_retains_failed (r : Reading) (smp : SensorSample)
    (smps : List SensorSample) :
    (smp.dhtTemp = none → (applySample r smp).temperature = r.temperature) ∧
    (smp.dhtHum = none → (applySample r smp).humidity = r.humidity) ∧
    (smp.hxWeight = none → (applySample r smp).weight = r.weight) ∧
    ((∀ x ∈ smps, x.dhtTemp = none) →
        (smps.foldl applySample r).temperature = r.temperature) ∧
    ((∀ x ∈ smps, x.dhtHum = none) →
        (smps.foldl applySample r).humidity = r.humidity) ∧
    ((∀ x ∈ smps, x.hxWeight = none) →
        (smps.foldl applySample r).weight = r.weight) ∧
    (∀ x : SensorSample, (applySample r x).temperature = r.temperature ∨
        x.dhtTemp = some ((applySample r x).temperature)) ∧
    (∀ x : SensorSample, (applySample r x).humidity = r.humidity ∨
        x.dhtHum = some ((applySample r x).humidity)) ∧
    (∀ x : SensorSample, (applySample r x).weight = r.weight ∨
        x.hxWeight = some ((applySample r x).weight)) := by
  refine ⟨?_, ?_, ?_, foldl_applySample_temp smps r, foldl_applySample_hum smps r,
    foldl_applySample_weight smps r, ?_, ?_, ?_⟩
  · intro h; simp [applySample, h]
  · intro h; simp [applySample, h]
  · intro h; simp [applySample, h]
  · intro x
    cases hx : x.dhtTemp <;> simp [applySample, hx]
  · intro x
    cases hx : x.dhtHum <;> simp [applySample, hx]
  · intro x
    cases hx : x.hxWeight <;> simp [applySample, hx]

/-- Witness for C5: two consecutive fully failed samples leave every
retained channel at its last successful value. -/
theorem applySample_retains_failed_witness :
    (applySample (Reading.mk 33 44 10 200) (SensorSample.mk none none none 777)).temperature = 33 ∧
    (applySample (Reading.mk 33 44 10 200) (SensorSample.mk none none none 777)).humidity = 44 ∧
    (applySample (Reading.mk 33 44 10 200) (SensorSample.mk none none none 777)).weight = 10 ∧
    ([SensorSample.mk none none none 777, SensorSample.mk none none none 5].foldl
        applySample (Reading.mk 33 44 10 200)).temperature = 33 :=
  ⟨(applySample_retains_failed (Reading.mk 33 44 10 200)
      (SensorSample.mk none none none 777) []).1 rfl,
   (applySample_retains_failed (Reading.mk 33 44 10 200)
      (SensorSample.mk none none none 777) []).2.1 rfl,
   (applySample_retains_failed (Reading.mk 33 44 10 200)
      (SensorSample.mk none none none 777) []).2.2.1 rfl,
   (applySample_retains_failed (Reading.mk 33 44 10 200)
      (SensorSample.mk none none none 777)
      [SensorSample.mk none none none 777, SensorSample.mk none none none 5]).2.2.2.1
     (by decide)⟩

/-- C6: on any tick where the save interval has elapsed but the dispatcher
is not IDLE, no reading is appended and the save deadline `lastDbMillis`
is not advanced — the write is skipped, not queued; and on a tick where
the dispatcher is IDLE and the interval has elapsed, exactly one row is
appended and the deadline advances to that tick, so no backlog of
deferred writes ever accumulates. -/
theorem dbTick_defer (st : DbState) (now1 now2 : Nat) (sms1 : SmsState)
    (r1 r2 : Reading) (ts1 ts2 : Option String)
    (h1 : elapsedMs now1 st.lastDbMillis ≥ DB_SAVE_INTERVAL)
    (hbusy : sms1 ≠ SmsState.SMS_IDLE)
    (h2 : elapsedMs now2 st.lastDbMillis ≥ DB_SAVE_INTERVAL) :
    dbTick now1 sms1 r1 ts1 st = st ∧
    dbTick now2 SmsState.SMS_IDLE r2 ts2 st
      = DbState.mk now2 (st.log ++ [mkRow ts2 now2 r2]) := by
  constructor
  · unfold dbTick
    rw [if_pos h1, if_neg hbusy]
  · unfold dbTick
    rw [if_pos h2, if_pos rfl]

/-- Witness for C6: at t=30,000 with the dispatcher in WAIT the save is
skipped entirely; at t=31,000 with the dispatcher idle one offline-stamped
row is appended and the deadline moves to 31,000. -/
theorem dbTick_defer_witness :
    dbTick 30000 SmsState.SMS_WAIT (Reading.mk 1 2 3 4) none (DbState.mk 0 [])
      = DbState.mk 0 [] ∧
    dbTick 31000 SmsState.SMS_IDLE (Reading.mk 1 2 3 4) none (DbState.mk 0 [])
      = DbState.mk 31000 [mkRow none 31000 (Reading.mk 1 2 3 4)] :=
  ⟨(dbTick_defer (DbState.mk 0 []) 30000 31000 SmsState.SMS_WAIT
      (Reading.mk 1 2 3 4) (Reading.mk 1 2 3 4) none none
      (by decide) (by decide) (by decide)).1,
   (dbTick_defer (DbState.mk 0 []) 30000 31000 SmsState.SMS_WAIT
      (Reading.mk 1 2 3 4) (Reading.mk 1 2 3 4) none none
      (by decide) (by decide) (by decide)).2⟩

/-- C7: for every stored log, the monthly-averages query excludes every
offline-marked row — deleting an offline-marked row anywhere in the log
leaves the whole result (every day bucket included) unchanged, so no
returned bucket incorporates such a row — and for every log the result
groups the remaining rows by the 10-character date portion of the
timestamp, is ordered by day descending, and holds at most 30 rows. -/
theorem queryMonthlyAverages_spec (log1 log2 : List LogRow) (row : LogRow)
    (hoff : isOfflineLike row.timestamp = true) :
    queryMonthlyAverages (log1 ++ row :: log2)
        = queryMonthlyAverages (log1 ++ log2) ∧
    (∀ log : List LogRow, (queryMonthlyAverages log).length ≤ 30) ∧
    (∀ log : List LogRow,
        List.Sorted (fun a b : DayAvg => b.day ≤ a.day)
          (queryMonthlyAverages log)) ∧
    (∀ log : List LogRow, ∀ b ∈ queryMonthlyAverages log,
        b = dayBucket (nonOffline log) b.day) := by
  refine ⟨?_, ?_, ?_, ?_⟩
  · have hfil : nonOffline (log1 ++ row :: log2) = nonOffline (log1 ++ log2) := by
      unfold nonOffline
      simp [List.filter_append, List.filter_cons, hoff]
    unfold queryMonthlyAverages
    rw [hfil]
  · intro log
    unfold queryMonthlyAverages aggregateDays
    simp
  · intro log
    unfold queryMonthlyAverages aggregateDays
    have hs : List.Sorted (fun a b : String => b ≤ a)
        (List.insertionSort (fun a b => b ≤ a)
          ((List.map dayKey (nonOffline log)).dedup)) := by
      haveI : IsTotal String (fun a b => b ≤ a) := ⟨fun a b => le_total b a⟩
      haveI : IsTrans String (fun a b => b ≤ a) :=
        ⟨fun a b c hab hbc => le_trans hbc hab⟩
      exact List.sorted_insertionSort _ _
    exact (hs.sublist (List.take_sublist 30 _)).map _ (fun a b hab => hab)
  · intro log b hb
    unfold queryMonthlyAverages aggregateDays at hb
    obtain ⟨d, _, rfl⟩ := List.mem_map.mp hb
    rfl

/-- Witness for C7 at a concrete log: an offline-stamped row between two
dated rows is invisible to the monthly query. -/
theorem queryMonthlyAverages_spec_witness :
    queryMonthlyAverages
        [LogRow.mk "2025-03-01 10:00:00" 30 60 12 200,
         LogRow.mk "Offline-07" 99 99 99 999,
         LogRow.mk "2025-03-02 10:00:00" 32 62 14 220]
      = queryMonthlyAverages
        [LogRow.mk "2025-03-01 10:00:00" 30 60 12 200,
         LogRow.mk "2025-03-02 10:00:00" 32 62 14 220] :=
  (queryMonthlyAverages_spec [LogRow.mk "2025-03-01 10:00:00" 30 60 12 200]
    [LogRow.mk "2025-03-02 10:00:00" 32 62 14 220]
    (LogRow.mk "Offline-07" 99 99 99 999) (by decide)).1

/-- Counterexample for C8 as stated: an unauthenticated `/data` request is
answered with status 303, but the handler (`send(303, "text/plain", "/")`,
line 724) sets no `Location` header at all — the login path "/" travels in
the response body instead — so the answer does not include "the Location
header that makes it a redirect". -/
theorem handleData_unauth_no_location :
    (handleData false (Reading.mk 0 0 0 0)).status = 303 ∧
    (handleData false (Reading.mk 0 0 0 0)).location = none ∧
    (handleData false (Reading.mk 0 0 0 0)).location ≠ some "/" := by
  decide

/-- C8 (amended: only `/dashboard` and `/report` set a `Location: /`
header; the six API routes answer status 303 with the login path "/" as a
`text/plain` body and no `Location` header): every privileged route
answers an unauthenticated request with status 303 and never serves its
normal body or mutates its state — the settings and the dispatcher are
returned unchanged — while authenticated requests get the normal 200
page. -/
theorem privileged_unauth_responses (r : Reading) (s : Settings)
    (m : SmsMachine) (log : List LogRow) (args : Option SaveArgs) :
    handleDashboard false = HttpResponse.mk 303 (some "/") none "" ∧
    handleReport false = HttpResponse.mk 303 (some "/") none "" ∧
    handleData false r = HttpResponse.mk 303 none (some "text/plain") "/" ∧
    handleGetSettings false s
        = HttpResponse.mk 303 none (some "text/plain") "/" ∧
    handleSaveSettings false s args
        = (HttpResponse.mk 303 none (some "text/plain") "/", s) ∧
    handleSms false s m
        = (HttpResponse.mk 303 none (some "text/plain") "/", m) ∧
    handleHistory false log = HttpResponse.mk 303 none (some "text/plain") "/" ∧
    handleMonthly false log = HttpResponse.mk 303 none (some "text/plain") "/" ∧
    (handleDashboard true).status = 200 ∧ (handleDashboard true).body = dashboardPage ∧
    (handleReport true).status = 200 ∧ (handleData true r).status = 200 ∧
    (handleData true r).body = dataJson r :=
  ⟨rfl, rfl, rfl, rfl, rfl, rfl, rfl, rfl, rfl, rfl, rfl, rfl, rfl⟩

/-- C9: `is_authenticated` is a sliding window. It returns false when the
logged-in flag is unset; when the current time exceeds the stored expiry
it returns false *and* clears the flag, so the session stays dead; it
returns true only when the request presents the fixed session-marker
cookie `ESPSESSIONID=1` while the flag is set and unexpired, and on every
such success it re-stamps the expiry to 30 minutes (1,800,000 ms) from the
current time; an unexpired request without the marker (or without any
cookie) is refused without state change. -/
theorem is_authenticated_spec (now : Nat) (cookie : Option String)
    (st : SessionState) :
    (st.is_logged_in = false → is_authenticated now cookie st = (false, st)) ∧
    (st.is_logged_in = true → st.session_expiry < now →
        is_authenticated now cookie st
          = (false, SessionState.mk false st.session_expiry)) ∧
    (∀ c, st.is_logged_in = true → now ≤ st.session_expiry →
        cookie = some c → containsSub c "ESPSESSIONID=1" = true →
        now + SESSION_TIMEOUT < UINT32_MOD →
        is_authenticated now cookie st
          = (true, SessionState.mk true (now + SESSION_TIMEOUT))) ∧
    (∀ c, st.is_logged_in = true → now ≤ st.session_expiry →
        cookie = some c → containsSub c "ESPSESSIONID=1" = false →
        is_authenticated now cookie st = (false, st)) ∧
    (st.is_logged_in = true → now ≤ st.session_expiry → cookie = none →
        is_authenticated now cookie st = (false, st)) := by
  obtain ⟨li, ex⟩ := st
  refine ⟨?_, ?_, ?_, ?_, ?_⟩
  · intro h
    simp only at h
    subst h
    simp [is_authenticated]
  · intro h hlt
    simp only at h hlt
    subst h
    simp [is_authenticated, hlt]
  · intro c h hle hc hcook hnov
    simp only at h hle
    subst h
    subst hc
    unfold is_authenticated
    simp [Nat.not_lt.mpr hle, hcook, Nat.mod_eq_of_lt hnov]
  · intro c h hle hc hcook
    simp only at h hle
    subst h
    subst hc
    unfold is_authenticated
    simp [Nat.not_lt.mpr hle, hcook]
  · intro h hle hc
    simp only at h hle
    subst h
    subst hc
    unfold is_authenticated
    simp [Nat.not_lt.mpr hle]

/-- Witness for C9: a marker-bearing request at t=5,000 against a live
session expiring at t=100,000 succeeds and slides the expiry to
t=1,805,000; a request at t=200,000 against the same session is refused
and the flag is cleared. -/
theorem is_authenticated_spec_witness :
    is_authenticated 5000 (some "ESPSESSIONID=1") (SessionState.mk true 100000)
      = (true, SessionState.mk true 1805000) ∧
    is_authenticated 200000 (some "ESPSESSIONID=1") (SessionState.mk true 100000)
      = (false, SessionState.mk false 100000) :=
  ⟨(is_authenticated_spec 5000 (some "ESPSESSIONID=1")
      (SessionState.mk true 100000)).2.2.1 "ESPSESSIONID=1" rfl (by decide)
      rfl (by decide) (by decide),
   (is_authenticated_spec 200000 (some "ESPSESSIONID=1")
      (SessionState.mk true 100000)).2.1 rfl (by decide)⟩
